import Mathlib

/-!
Shallow embedding of the Arkham dVPN node core (package `node`): the latency
prober, the relay protocol handler (`Warden.streamHandler`), path selection and
tunnel negotiation (`connectHandler`), the tunnel configurator
(`configureSeekerInterface`) and `disconnectHandler`.

Modelling conventions:
* Peer ids and wire-encoded keys are opaque; both are modelled as `Nat`
  (the base64/base58 string encodings used on the wire are injective, so a
  numeric stand-in is faithful for equality reasoning).
* The WireGuard public key derived from a private key (`wgtypes.Key.PublicKey`)
  is an injective function of the private key; it is modelled by carrying the
  private value over into a distinct `PubKey` type.
* Fallible external calls (stream opens, JSON encode/decode, OS commands) are
  modelled by environment records carrying their outcome; the handler logic is
  then a pure function of the environment, and every externally visible action
  it performs is recorded in an `Event` trace.
* Machine integers (`int`, `int64`) are modelled as `Int`; none of the embedded
  arithmetic can overflow at the values involved.
-/

namespace ArkhamNode

/-- Opaque libp2p peer identifier (stands for `peer.ID` and its string form). -/
abbrev PeerId := Nat

/-- Wire form of a WireGuard key (stands for the base64 `String` of a key). -/
abbrev WireKey := Nat

/-- Model of `wgtypes.Key` used as a private key. -/
structure PrivKey where
  val : Nat
deriving DecidableEq

/-- Model of a WireGuard public key. -/
structure PubKey where
  val : Nat
deriving DecidableEq

/-- Model of `wgtypes.Key.PublicKey()`: an injective derivation. -/
def PrivKey.publicKey (k : PrivKey) : PubKey := ⟨k.val⟩

/-- Model of `wgtypes.Key.String()` on a public key. -/
def PubKey.wire (k : PubKey) : WireKey := k.val

/-- Mirrors `VPNRequest` (the TunnelRequest wire message). -/
structure VPNRequest where
  seekerPublicKey : WireKey
  hops : List PeerId
deriving DecidableEq

/-- Mirrors `VPNResponse` (the TunnelResponse wire message). -/
structure VPNResponse where
  wardenPublicKey : WireKey
deriving DecidableEq

/-- Mirrors `APIResponse` returned by the HTTP control API. -/
structure APIResponse where
  status : String
  message : String
  wardenPeerID : Option PeerId := none
  seekerPublicKey : Option WireKey := none
  wardenPublicKey : Option WireKey := none
  path : List PeerId := []
deriving DecidableEq

/-- Mirrors the `ProtocolStream` constant. -/
def ProtocolStream : String := "/arkham/vpn/1.0.0"

/-- Mirrors the `ProtocolPing` constant. -/
def ProtocolPing : String := "/arkham/ping/1.0.0"

/-- An IP network as configured in `wgtypes.PeerConfig.AllowedIPs`. -/
structure IPNet where
  ip : String
  maskOnes : Nat
  maskBits : Nat
deriving DecidableEq

/-- Mirrors `wgtypes.PeerConfig` (the fields the code sets). -/
structure WgPeerConfig where
  publicKey : WireKey
  allowedIPs : List IPNet
  endpoint : String
deriving DecidableEq

/-- Mirrors `wgtypes.Config` (the fields the code sets). -/
structure WgConfig where
  privateKey : PrivKey
  replacePeers : Bool
  peers : List WgPeerConfig
deriving DecidableEq

/-- Externally visible actions performed by the embedded handlers. -/
inductive Event where
  | resetStream : Event
  | openStream (p : PeerId) (proto : String) (timeoutSec : Nat) : Event
  | sendRequest (p : PeerId) (r : VPNRequest) : Event
  | writeResponse (r : VPNResponse) : Event
  | genKeypair (k : PrivKey) : Event
  | putLatency (p : PeerId) (v : Int) : Event
  | osIfaceDel : Event
  | osIfaceAdd : Event
  | osWgConfigure (c : WgConfig) : Event
  | osIfaceUp : Event
  | osDns : Event
  | writeHTTP (code : Nat) (resp : APIResponse) : Event
deriving DecidableEq

/-- True exactly on OS network-interface events. -/
def isOsEvent : Event → Bool
  | Event.osIfaceDel => true
  | Event.osIfaceAdd => true
  | Event.osWgConfigure _ => true
  | Event.osIfaceUp => true
  | Event.osDns => true
  | _ => false

/-- True exactly on peer-registry (Peerstore) mutations. -/
def isRegistryEvent : Event → Bool
  | Event.putLatency _ _ => true
  | _ => false

/-! ### Latency prober (`measureLatency`, part_002 lines 77-101) -/

/-- Outcomes of the external calls made by one probe, plus the elapsed
wall-clock milliseconds observed at the recording point. -/
structure ProbeEnv where
  openOk : Bool
  writeOk : Bool
  readOk : Bool
  elapsedMs : Int
deriving DecidableEq

/-- Model of `Peerstore().Put(p, "latency", v)` on a registry represented as an
association list: overwrite the entry for `p` or append a new one. -/
def putReg (reg : List (PeerId × Int)) (p : PeerId) (v : Int) : List (PeerId × Int) :=
  match reg with
  | [] => [(p, v)]
  | (q, w) :: rest => if q = p then (p, v) :: rest else (q, w) :: putReg rest p v

/-- Model of `Peerstore().Get(p, "latency")`. -/
def getReg (reg : List (PeerId × Int)) (p : PeerId) : Option Int :=
  (reg.find? fun e => e.fst == p).map fun e => e.snd

/-- Embeds `measureLatency`: on stream-open failure or write failure it records
the sentinel 9999; a read failure is explicitly ignored in the source (the
comment there says the stream might already be closed) and the elapsed time is
recorded regardless.  The Go function returns nothing and touches nothing but
the registry, which the return type mirrors. -/
def measureLatency (env : ProbeEnv) (p : PeerId) (reg : List (PeerId × Int)) :
    List (PeerId × Int) :=
  if !env.openOk then putReg reg p 9999
  else if !env.writeOk then putReg reg p 9999
  else putReg reg p env.elapsedMs

/-! ### Relay protocol handler (`Warden.streamHandler`, part_002 lines 108-183) -/

/-- Outcomes of the external calls an inbound negotiation stream can make:
decoding the inbound request, `peer.Decode` of the next-hop id, opening the
stream to the next hop, the two JSON encodes, the downstream decode, and
`wgtypes.GeneratePrivateKey`. -/
structure HandlerEnv where
  decodeReq : Option VPNRequest
  decodePeerId : PeerId → Option PeerId
  openNext : PeerId → Option Unit
  sendNext : Bool
  recvNext : Option VPNResponse
  sendBack : Bool
  genKey : Option PrivKey

/-- Embeds `Warden.streamHandler`.  The returned trace lists the externally
visible actions in program order; an early `return` in the source ends the
trace at that point. -/
def streamHandler (env : HandlerEnv) : List Event :=
  match env.decodeReq with
  | none => [Event.resetStream]
  | some req =>
    match req.hops with
    | nextHopID :: remainingHops =>
      match env.decodePeerId nextHopID with
      | none => []
      | some nextHop =>
        match env.openNext nextHop with
        | none => []
        | some _ =>
          let forwardReq : VPNRequest :=
            { seekerPublicKey := req.seekerPublicKey, hops := remainingHops }
          if !env.sendNext then
            [Event.openStream nextHop ProtocolStream 30]
          else
            match env.recvNext with
            | none =>
              [Event.openStream nextHop ProtocolStream 30,
               Event.sendRequest nextHop forwardReq]
            | some resp =>
              if !env.sendBack then
                [Event.openStream nextHop ProtocolStream 30,
                 Event.sendRequest nextHop forwardReq]
              else
                [Event.openStream nextHop ProtocolStream 30,
                 Event.sendRequest nextHop forwardReq,
                 Event.writeResponse resp]
    | [] =>
      match env.genKey with
      | none => []
      | some wardenPrivKey =>
        if !env.sendBack then
          [Event.genKeypair wardenPrivKey]
        else
          [Event.genKeypair wardenPrivKey,
           Event.writeResponse { wardenPublicKey := wardenPrivKey.publicKey.wire }]

/-- The TunnelResponse a handler run writes on its inbound stream, if any. -/
def respOf (env : HandlerEnv) : Option VPNResponse :=
  (streamHandler env).findSome? fun e =>
    match e with
    | Event.writeResponse r => some r
    | _ => none

/-- Environment of a node on an all-honest negotiation chain: every stream
operation succeeds, the downstream response (when the node forwards) is
`down`, and key generation (when the node is the exit) yields `ek`. -/
def honestEnv (ek : PrivKey) (req : VPNRequest) (down : Option VPNResponse) : HandlerEnv :=
  { decodeReq := some req
    decodePeerId := fun n => some n
    openNext := fun _ => some ()
    sendNext := true
    recvNext := down
    sendBack := true
    genKey := some ek }

/-- Response delivered back for a request with hop list `hs`, on a chain of
honest nodes each running `streamHandler`: the node holding `hs` receives the
request, and (per the lemma on forwarded requests) the downstream node receives
the same seeker key with the tail hop list. -/
def chainResponse (ek : PrivKey) (pk : WireKey) : List PeerId → Option VPNResponse
  | [] => respOf (honestEnv ek { seekerPublicKey := pk, hops := [] } none)
  | h :: t =>
    respOf (honestEnv ek { seekerPublicKey := pk, hops := h :: t }
      (chainResponse ek pk t))

/-- Concatenated traces of every node on the honest chain. -/
def chainEvents (ek : PrivKey) (pk : WireKey) : List PeerId → List Event
  | [] => streamHandler (honestEnv ek { seekerPublicKey := pk, hops := [] } none)
  | h :: t =>
    streamHandler (honestEnv ek { seekerPublicKey := pk, hops := h :: t }
      (chainResponse ek pk t)) ++ chainEvents ek pk t

/-! ### Tunnel configurator (`configureSeekerInterface`, part_002 lines 350-416) -/

/-- Local OS network state relevant to the node: whether the `wg0` interface
exists, and its device configuration when it does. -/
structure OsState where
  wg0exists : Bool
  devPrivKey : Option PrivKey
  devPeers : List WgPeerConfig
  devUp : Bool
deriving DecidableEq

/-- State after `ip link del wg0` (errors from a missing interface ignored). -/
def osDeleted : OsState :=
  { wg0exists := false, devPrivKey := none, devPeers := [], devUp := false }

/-- State right after `ip link add wg0 type wireguard`: present, unconfigured. -/
def osFresh : OsState :=
  { wg0exists := true, devPrivKey := none, devPeers := [], devUp := false }

/-- Model of `wgClient.ConfigureDevice`: sets the private key; with
`ReplacePeers` the device peer list becomes exactly the configured one,
otherwise the configured peers are appended. -/
def applyWgConfig (st : OsState) (c : WgConfig) : OsState :=
  { st with
      devPrivKey := some c.privateKey
      devPeers := if c.replacePeers then c.peers else st.devPeers ++ c.peers }

/-- Outcomes of the external calls made while configuring the interface. -/
structure OsEnv where
  addOk : Bool
  wgctrlOk : Bool
  parseKeyOk : Bool
  toNetAddrOk : Bool
  configOk : Bool
  upOk : Bool
  dnsOk : Bool
  dnsDomainOk : Bool
deriving DecidableEq

/-- The distinct error returns of `configureSeekerInterface`. -/
inductive ConfigError where
  | createFailed
  | wgctrlFailed
  | parseKeyFailed
  | parseAddrFailed
  | configureFailed
  | upFailed
deriving DecidableEq

/-- Model of stripping the overlay suffix from the remote multiaddress:
the source keeps everything before the first occurrence of the overlay
transport marker. -/
def stripQuic (s : String) : String := (s.splitOn "/quic-v1").headD ""

/-- The single allowed-traffic range the code configures:
`net.ParseIP 0.0.0.0` with `net.CIDRMask 0 32`, i.e. all IPv4 addresses. -/
def allTraffic : IPNet := { ip := "0.0.0.0", maskOnes := 0, maskBits := 32 }

/-- Embeds `configureSeekerInterface`.  Mirrors the source order: delete any
pre-existing interface (error ignored), create a fresh one, open the control
client, parse the warden key, strip and convert the remote address, configure
the device with exactly one peer, bring the link up, then best-effort DNS.
Every error path returns the state reached so far; none of them deletes the
interface created in the second step. -/
def configureSeekerInterface (env : OsEnv) (_st : OsState) (privKey : PrivKey)
    (wardenPubKeyStr : WireKey) (remoteAddr : String) :
    Except ConfigError Unit × OsState × List Event :=
  let ev1 : List Event := [Event.osIfaceDel]
  if !env.addOk then
    (Except.error ConfigError.createFailed, osDeleted, ev1)
  else
    let ev2 := ev1 ++ [Event.osIfaceAdd]
    if !env.wgctrlOk then
      (Except.error ConfigError.wgctrlFailed, osFresh, ev2)
    else if !env.parseKeyOk then
      (Except.error ConfigError.parseKeyFailed, osFresh, ev2)
    else if !env.toNetAddrOk then
      (Except.error ConfigError.parseAddrFailed, osFresh, ev2)
    else
      let peerCfg : WgPeerConfig :=
        { publicKey := wardenPubKeyStr
          allowedIPs := [allTraffic]
          endpoint := stripQuic remoteAddr }
      let cfg : WgConfig :=
        { privateKey := privKey, replacePeers := true, peers := [peerCfg] }
      if !env.configOk then
        (Except.error ConfigError.configureFailed, osFresh, ev2)
      else
        let st3 := applyWgConfig osFresh cfg
        let ev3 := ev2 ++ [Event.osWgConfigure cfg]
        if !env.upOk then
          (Except.error ConfigError.upFailed, st3, ev3)
        else
          (Except.ok (), { st3 with devUp := true },
           ev3 ++ [Event.osIfaceUp, Event.osDns])

/-! ### Path selection and connect (`connectHandler`, part_002 lines 221-333) -/

/-- One row of the Peerstore as seen by the handlers: a peer id and the last
recorded latency; `none` models a Peerstore lookup error (no latency entry). -/
structure PeerRec where
  pid : PeerId
  latency : Option Int
deriving DecidableEq

/-- The local host: its own id and the Peerstore contents in iteration order. -/
structure HostModel where
  selfId : PeerId
  peers : List PeerRec
deriving DecidableEq

/-- Mirrors the eligibility filter of `connectHandler`: skip self, skip peers
with no latency entry, skip latency at or above the 9999 sentinel. -/
def eligiblePeer (selfId : PeerId) (r : PeerRec) : Bool :=
  if r.pid == selfId then false
  else
    match r.latency with
    | none => false
    | some l => decide (l < 9999)

/-- The `availablePeers` list built by `connectHandler`. -/
def availablePeers (h : HostModel) : List PeerRec :=
  h.peers.filter (eligiblePeer h.selfId)

/-- Recorded latency of a peer record (every available peer has one). -/
def latOf (r : PeerRec) : Int := r.latency.getD 0

/-- Comparison used to model the latency sort of `connectHandler`. -/
def leLat (a b : PeerRec) : Bool := decide (latOf a ≤ latOf b)

/-- Hop-count normalisation of `connectHandler`: a missing or undecodable body
yields 1, and a non-positive requested count is coerced to 1. -/
def effectiveHops (body : Option Int) : Int :=
  let k := body.getD 1
  if k ≤ 0 then 1 else k

/-- The path `connectHandler` selects: available peers sorted ascending by
latency, truncated to the hop count. -/
def selectedPath (h : HostModel) (hops : Int) : List PeerRec :=
  ((availablePeers h).mergeSort leLat).take hops.toNat

/-- Outcomes of the external calls `connectHandler` makes after path
selection: key generation, the stream to the entry peer, the request encode,
the response decode, the remote multiaddress of the entry connection, and the
OS environment for interface configuration. -/
structure ConnectEnv where
  genKey : Option PrivKey
  openEntry : Bool
  sendReq : Bool
  recvResp : Option VPNResponse
  remoteAddr : String
  os : OsEnv
deriving DecidableEq

/-- Distinct exits of `connectHandler`. -/
inductive ConnectResult where
  | insufficientPeers
  | keyGenFailed
  | streamFailed
  | sendFailed
  | recvFailed
  | configFailed (e : ConfigError)
  | ok (resp : APIResponse)
deriving DecidableEq

/-- Mirrors `writeError`: an error-status API body. -/
def errorResp (msg : String) : APIResponse :=
  { status := "error", message := msg }

/-- Default record used only to totalise `List.headD` (never reached when the
path is non-empty). -/
def dummyRec : PeerRec := { pid := 0, latency := none }

/-- Embeds `connectHandler`: normalise the hop count, filter the Peerstore,
fail 503 when fewer available peers than hops, otherwise sort by latency, take
the path, generate the seeker keypair, negotiate with the entry peer (first
path element) over the negotiation protocol with a 60s deadline, and configure
the local interface from the response. -/
def connectHandler (h : HostModel) (body : Option Int) (env : ConnectEnv)
    (st : OsState) : ConnectResult × OsState × List Event :=
  let hops := effectiveHops body
  let available := availablePeers h
  if (available.length : Int) < hops then
    (ConnectResult.insufficientPeers, st,
     [Event.writeHTTP 503 (errorResp "Not enough available peers.")])
  else
    let path := selectedPath h hops
    let wardenPeer := (path.headD dummyRec).pid
    match env.genKey with
    | none =>
      (ConnectResult.keyGenFailed, st,
       [Event.writeHTTP 500 (errorResp "Failed to generate private key.")])
    | some seekerPrivKey =>
      let hopIDs := (path.drop 1).map fun r => r.pid
      let req : VPNRequest :=
        { seekerPublicKey := seekerPrivKey.publicKey.wire, hops := hopIDs }
      if !env.openEntry then
        (ConnectResult.streamFailed, st,
         [Event.genKeypair seekerPrivKey,
          Event.writeHTTP 500 (errorResp "Failed to open stream to peer.")])
      else
        let evs0 := [Event.genKeypair seekerPrivKey,
                     Event.openStream wardenPeer ProtocolStream 60]
        if !env.sendReq then
          (ConnectResult.sendFailed, st,
           evs0 ++ [Event.writeHTTP 500 (errorResp "Failed to send request.")])
        else
          let evs1 := evs0 ++ [Event.sendRequest wardenPeer req]
          match env.recvResp with
          | none =>
            (ConnectResult.recvFailed, st,
             evs1 ++ [Event.writeHTTP 500 (errorResp "Failed to get response.")])
          | some resp =>
            match configureSeekerInterface env.os st seekerPrivKey
                resp.wardenPublicKey env.remoteAddr with
            | (Except.error e, st2, cfgEvs) =>
              (ConnectResult.configFailed e, st2,
               evs1 ++ cfgEvs ++
                 [Event.writeHTTP 500
                   (errorResp "Failed to configure WireGuard interface.")])
            | (Except.ok _, st2, cfgEvs) =>
              let okResp : APIResponse :=
                { status := "success"
                  message := "WireGuard interface configured."
                  wardenPeerID := some wardenPeer
                  seekerPublicKey := some seekerPrivKey.publicKey.wire
                  wardenPublicKey := some resp.wardenPublicKey
                  path := path.map fun r => r.pid }
              (ConnectResult.ok okResp, st2,
               evs1 ++ cfgEvs ++ [Event.writeHTTP 200 okResp])

/-! ### Disconnect (`disconnectHandler`, part_002 lines 335-348) -/

/-- The success body `disconnectHandler` always writes. -/
def discResp : APIResponse :=
  { status := "success", message := "WireGuard interface deleted." }

/-- Embeds `disconnectHandler`: attempt `ip link del wg0` (failure only
logged), then unconditionally report success. -/
def disconnectHandler (_st : OsState) : APIResponse × OsState × List Event :=
  (discResp, osDeleted, [Event.osIfaceDel, Event.writeHTTP 200 discResp])

/-! ## Trace classifiers used by the claim statements -/

/-- True exactly on key-generation events. -/
def isGenKeyEvent : Event → Bool
  | Event.genKeypair _ => true
  | _ => false

/-- True exactly on TunnelResponse writes. -/
def isWriteRespEvent : Event → Bool
  | Event.writeResponse _ => true
  | _ => false

/-- True exactly on outbound negotiation-stream opens. -/
def isOpenStreamEvent : Event → Bool
  | Event.openStream _ _ _ => true
  | _ => false

/-! ## Helper lemmas -/

/-- An eligible peer record is not self and carries a recorded latency strictly
below the 9999 sentinel. -/
theorem eligiblePeer_spec (selfId : PeerId) (r : PeerRec)
    (hel : eligiblePeer selfId r = true) :
    r.pid ≠ selfId ∧ ∃ l, r.latency = some l ∧ l < 9999 := by
  unfold eligiblePeer at hel
  by_cases hp : r.pid == selfId
  · simp [hp] at hel
  · rcases hr : r.latency with _ | l
    · rw [hr] at hel; simp [hp] at hel
    · rw [hr] at hel
      refine ⟨by simpa using hp, l, rfl, ?_⟩
      simpa [hp] using hel

/-! ## Claim C2 -/

/-- C2: on an inbound TunnelRequest with a non-empty hop list, the relay
handler opens a stream to the decoded first hop using the negotiation protocol
under a 30-second timeout, and the only request it ever sends is a freshly
built one carrying the unchanged requester public key and exactly the received
hop list minus its first element, so the hop-list length drops by exactly 1. -/
theorem relay_forwards_tail (env : HandlerEnv) (req : VPNRequest) (nh h0 : PeerId)
    (t : List PeerId)
    (hdec : env.decodeReq = some req) (hh : req.hops = h0 :: t)
    (hpid : env.decodePeerId h0 = some nh) (hopen : env.openNext nh = some ())
    (hsend : env.sendNext = true) :
    Event.openStream nh ProtocolStream 30 ∈ streamHandler env ∧
    Event.sendRequest nh { seekerPublicKey := req.seekerPublicKey, hops := t }
      ∈ streamHandler env ∧
    t.length + 1 = req.hops.length ∧
    (∀ p r, Event.sendRequest p r ∈ streamHandler env →
      p = nh ∧ r = { seekerPublicKey := req.seekerPublicKey, hops := t }) := by
  have htrace : streamHandler env =
      Event.openStream nh ProtocolStream 30 ::
      Event.sendRequest nh { seekerPublicKey := req.seekerPublicKey, hops := t } ::
      (match env.recvNext with
       | none => []
       | some resp => if !env.sendBack then [] else [Event.writeResponse resp]) := by
    simp only [streamHandler, hdec, hh, hpid, hopen, hsend, Bool.not_true]
    cases env.recvNext with
    | none => simp
    | some resp => cases hsb : env.sendBack <;> simp
  refine ⟨?_, ?_, by simp [hh], ?_⟩
  · rw [htrace]; exact List.mem_cons_self _ _
  · rw [htrace]; exact List.mem_cons_of_mem _ (List.mem_cons_self _ _)
  · intro p r hmem
    rw [htrace] at hmem
    simp only [List.mem_cons] at hmem
    rcases hmem with h | h | h
    · cases h
    · cases h; exact ⟨rfl, rfl⟩
    · cases hr : env.recvNext with
      | none => rw [hr] at h; cases h
      | some resp =>
        rw [hr] at h
        cases hsb : env.sendBack <;> rw [hsb] at h <;> simp at h

/-- Witness for C2 at a concrete environment. -/
theorem relay_forwards_tail_witness :
    Event.sendRequest 4 { seekerPublicKey := 11, hops := [5, 6] } ∈
      streamHandler
        { decodeReq := some { seekerPublicKey := 11, hops := [4, 5, 6] }
          decodePeerId := fun n => some n
          openNext := fun _ => some ()
          sendNext := true
          recvNext := none
          sendBack := true
          genKey := none } :=
  (relay_forwards_tail _ _ 4 4 [5, 6] rfl rfl rfl rfl rfl).2.1

/-! ## Claim C3 -/

/-- C3: on a chain of honest relay handlers, the TunnelResponse received back
for a request with any hop list equals the one built by the exit node (the
node that received the empty hop list) from its freshly generated keypair, and
across the whole chain exactly one keypair-generation event occurs — every
intermediate hop relays the decoded response back unchanged. -/
theorem negotiation_roundtrip (ek : PrivKey) (pk : WireKey) (hs : List PeerId) :
    chainResponse ek pk hs = some { wardenPublicKey := ek.publicKey.wire } ∧
    (chainEvents ek pk hs).countP isGenKeyEvent = 1 := by
  induction hs with
  | nil => exact ⟨rfl, rfl⟩
  | cons h t ih =>
    obtain ⟨ih1, ih2⟩ := ih
    constructor
    · simp [chainResponse, ih1, respOf, streamHandler, honestEnv]
    · simp [chainEvents, List.countP_append, ih2, ih1, streamHandler, honestEnv,
        List.countP_cons, isGenKeyEvent]

/-! ## Claims C7 and C8 -/

/-- Normal form of a fully successful interface configuration. -/
theorem configure_success (env : OsEnv) (st : OsState) (pk : PrivKey) (wk : WireKey)
    (ra : String)
    (h1 : env.addOk = true) (h2 : env.wgctrlOk = true) (h3 : env.parseKeyOk = true)
    (h4 : env.toNetAddrOk = true) (h5 : env.configOk = true) (h6 : env.upOk = true) :
    configureSeekerInterface env st pk wk ra =
      (Except.ok (),
       { wg0exists := true, devPrivKey := some pk,
         devPeers := [{ publicKey := wk, allowedIPs := [allTraffic],
                        endpoint := stripQuic ra }],
         devUp := true },
       [Event.osIfaceDel, Event.osIfaceAdd,
        Event.osWgConfigure
          { privateKey := pk, replacePeers := true,
            peers := [{ publicKey := wk, allowedIPs := [allTraffic],
                        endpoint := stripQuic ra }] },
        Event.osIfaceUp, Event.osDns]) := by
  simp [configureSeekerInterface, h1, h2, h3, h4, h5, h6, applyWgConfig, osFresh]

/-- Host for the C7 scenario: one eligible peer. -/
def c7host : HostModel := { selfId := 0, peers := [{ pid := 1, latency := some 10 }] }

/-- Environment for the C7 scenario: the negotiation succeeds end to end and
the interface is created, after which opening the WireGuard control client
fails. -/
def c7env : ConnectEnv :=
  { genKey := some ⟨5⟩, openEntry := true, sendReq := true,
    recvResp := some { wardenPublicKey := 77 },
    remoteAddr := "/ip4/10.0.0.1/udp/4001/quic-v1/p2p/Qm",
    os := { addOk := true, wgctrlOk := false, parseKeyOk := true, toNetAddrOk := true,
            configOk := true, upOk := true, dnsOk := true, dnsDomainOk := true } }

/-- C7 (documents a code bug): when interface configuration fails after a
successful negotiation, the connect request does fail with a 500 error, but
the freshly created wg0 interface is still present in the final OS state: no
error path of the configurator removes it, contradicting the requirement that
a partially created interface be removed rather than left dangling. -/
theorem connect_config_failure_leaves_interface :
    (connectHandler c7host (some 1) c7env
        { wg0exists := false, devPrivKey := none, devPeers := [], devUp := false }).1
      = ConnectResult.configFailed ConfigError.wgctrlFailed ∧
    Event.writeHTTP 500 (errorResp "Failed to configure WireGuard interface.")
      ∈ (connectHandler c7host (some 1) c7env
          { wg0exists := false, devPrivKey := none, devPeers := [], devUp := false }).2.2 ∧
    (connectHandler c7host (some 1) c7env
        { wg0exists := false, devPrivKey := none, devPeers := [], devUp := false }).2.1.wg0exists
      = true := by
  refine ⟨rfl, ?_, rfl⟩
  simp [connectHandler, c7host, c7env, configureSeekerInterface, effectiveHops,
    availablePeers, eligiblePeer, selectedPath]

/-- C8: under a successful connect (enough eligible peers, negotiation
succeeds, every configuration step succeeds), the final device configuration
holds exactly one peer entry; its public key is the exit key carried by the
TunnelResponse, its allowed-traffic range is 0.0.0.0/0, and its endpoint is
the remote address of the entry-peer connection stripped of the overlay
suffix.  The request is reported successful with that exit key. -/
theorem connect_success_single_peer (h : HostModel) (k : Int) (env : ConnectEnv)
    (st : OsState) (sk : PrivKey) (resp : VPNResponse)
    (hk1 : 1 ≤ k) (hcap : k ≤ ((availablePeers h).length : Int))
    (hgen : env.genKey = some sk) (hopen : env.openEntry = true)
    (hsend : env.sendReq = true) (hrecv : env.recvResp = some resp)
    (h1 : env.os.addOk = true) (h2 : env.os.wgctrlOk = true)
    (h3 : env.os.parseKeyOk = true) (h4 : env.os.toNetAddrOk = true)
    (h5 : env.os.configOk = true) (h6 : env.os.upOk = true) :
    (connectHandler h (some k) env st).2.1.devPeers =
      [{ publicKey := resp.wardenPublicKey, allowedIPs := [allTraffic],
         endpoint := stripQuic env.remoteAddr }] ∧
    (connectHandler h (some k) env st).2.1.devPeers.length = 1 ∧
    (∃ apiResp, (connectHandler h (some k) env st).1 = ConnectResult.ok apiResp ∧
      apiResp.status = "success" ∧
      apiResp.wardenPublicKey = some resp.wardenPublicKey) := by
  have hk0 : ¬ k ≤ 0 := by omega
  have heff : effectiveHops (some k) = k := by simp [effectiveHops, hk0]
  have hcond2 : ¬ ((availablePeers h).length : Int) < k := by omega
  have hout := configure_success env.os st sk resp.wardenPublicKey env.remoteAddr
    h1 h2 h3 h4 h5 h6
  simp only [connectHandler, heff, if_neg hcond2, hgen, hopen, hsend, hrecv,
    Bool.not_true, hout]
  exact ⟨rfl, rfl, ⟨_, rfl, rfl, rfl⟩⟩

/-- Witness for C8 at a concrete single-hop connect. -/
theorem connect_success_single_peer_witness :
    (connectHandler { selfId := 0, peers := [{ pid := 1, latency := some 10 }] }
        (some 1)
        { genKey := some ⟨5⟩, openEntry := true, sendReq := true,
          recvResp := some { wardenPublicKey := 77 },
          remoteAddr := "/ip4/10.0.0.1/udp/4001/quic-v1/p2p/Qm",
          os := { addOk := true, wgctrlOk := true, parseKeyOk := true,
                  toNetAddrOk := true, configOk := true, upOk := true,
                  dnsOk := true, dnsDomainOk := true } }
        { wg0exists := false, devPrivKey := none, devPeers := [], devUp := false }).2.1.devPeers
      = [{ publicKey := 77, allowedIPs := [allTraffic],
           endpoint := stripQuic "/ip4/10.0.0.1/udp/4001/quic-v1/p2p/Qm" }] :=
  (connect_success_single_peer _ 1 _ _ ⟨5⟩ { wardenPublicKey := 77 }
    (by decide) (by decide) rfl rfl rfl rfl rfl rfl rfl rfl rfl rfl).1

/-! ## Claim C5 (corrected) -/

/-- C5 counterexample: a probe whose echo read fails does not record the 9999
sentinel — it records the elapsed time (42 ms here), refuting the claim that
any failure to read the echo records the unreachable sentinel. -/
theorem probe_read_failure_records_elapsed :
    measureLatency
        { openOk := true, writeOk := true, readOk := false, elapsedMs := 42 } 7 []
      = [(7, 42)] ∧
    getReg (measureLatency
        { openOk := true, writeOk := true, readOk := false, elapsedMs := 42 } 7 []) 7
      ≠ some 9999 := by
  exact ⟨rfl, by decide⟩

/-- C5 amended: a failure to open the probe stream or to write the marker byte
records the 9999 sentinel; when open and write succeed the elapsed time is
recorded even if reading the echo fails (the read error is deliberately
ignored).  In every case the probe returns nothing to its caller and its only
effect is the one registry update. -/
theorem probe_failure_sentinel_spec (env : ProbeEnv) (p : PeerId)
    (reg : List (PeerId × Int)) :
    ((env.openOk = false ∨ env.writeOk = false) →
        measureLatency env p reg = putReg reg p 9999) ∧
    (env.openOk = true → env.writeOk = true →
        measureLatency env p reg = putReg reg p env.elapsedMs) := by
  constructor
  · rintro (h | h) <;> simp [measureLatency, h]
  · intro h1 h2; simp [measureLatency, h1, h2]

/-- Witness for the amended C5 at concrete probes: an open failure records the
sentinel, and a read failure records the elapsed time. -/
theorem probe_failure_sentinel_spec_witness :
    measureLatency
        { openOk := false, writeOk := true, readOk := true, elapsedMs := 5 } 3 []
      = [(3, 9999)] ∧
    measureLatency
        { openOk := true, writeOk := true, readOk := false, elapsedMs := 6 } 3 []
      = [(3, 6)] :=
  ⟨(probe_failure_sentinel_spec _ 3 []).1 (Or.inl rfl),
   (probe_failure_sentinel_spec _ 3 []).2 rfl rfl⟩

/-! ## Claim C6 -/

/-- C6: whenever decoding the inbound TunnelRequest fails, or (on a non-empty
hop list) connecting to the next hop fails, sending the forwarded request
fails, or decoding the downstream response fails, the relay handler writes no
TunnelResponse whatsoever on the inbound stream. -/
theorem relay_abort_no_response (env : HandlerEnv)
    (hfail : env.decodeReq = none ∨
      ∃ req h0 t, env.decodeReq = some req ∧ req.hops = h0 :: t ∧
        ((∃ nh, env.decodePeerId h0 = some nh ∧ env.openNext nh = none) ∨
         env.sendNext = false ∨ env.recvNext = none)) :
    ∀ r : VPNResponse, Event.writeResponse r ∉ streamHandler env := by
  intro r
  rcases hfail with hdec | ⟨req, h0, t, hdec, hh, hcase⟩
  · simp [streamHandler, hdec]
  · rcases hcase with ⟨nh, hpid, hopen⟩ | hsend | hrecv
    · simp [streamHandler, hdec, hh, hpid, hopen]
    · simp only [streamHandler, hdec, hh, hsend]
      cases hp : env.decodePeerId h0 with
      | none => simp
      | some nh =>
        cases ho : env.openNext nh with
        | none => simp [ho]
        | some u => simp [ho]
    · simp only [streamHandler, hdec, hh, hrecv]
      cases hp : env.decodePeerId h0 with
      | none => simp
      | some nh =>
        cases ho : env.openNext nh with
        | none => simp [ho]
        | some u => cases hs : env.sendNext <;> simp [ho, hs]

/-- Witness for C6: a handler whose inbound decode fails writes nothing. -/
theorem relay_abort_no_response_witness :
    Event.writeResponse { wardenPublicKey := 5 } ∉
      streamHandler
        { decodeReq := none
          decodePeerId := fun n => some n
          openNext := fun _ => some ()
          sendNext := true
          recvNext := none
          sendBack := true
          genKey := none } :=
  relay_abort_no_response _ (Or.inl rfl) { wardenPublicKey := 5 }

/-! ## Claim C9 -/

/-- C9: disconnect always reports success regardless of the prior OS state
(including when no interface exists); run twice in a row both calls succeed,
and the second call leaves the state exactly as the first left it, its trace
being just the no-op delete attempt plus the 200 response. -/
theorem disconnect_idempotent (st : OsState) :
    (disconnectHandler st).1.status = "success" ∧
    Event.writeHTTP 200 discResp ∈ (disconnectHandler st).2.2 ∧
    (disconnectHandler (disconnectHandler st).2.1).1.status = "success" ∧
    (disconnectHandler (disconnectHandler st).2.1).2.1 = (disconnectHandler st).2.1 ∧
    (disconnectHandler (disconnectHandler st).2.1).2.2 =
      [Event.osIfaceDel, Event.writeHTTP 200 discResp] := by
  refine ⟨rfl, ?_, rfl, rfl, rfl⟩
  exact List.mem_cons_of_mem _ (List.mem_cons_self _ _)

/-! ## Claim C10 -/

/-- C10: a relay handler that receives an empty hop list behaves as the exit
node: its whole trace is the local keypair generation followed by exactly one
TunnelResponse write carrying the derived public key — no OS interface event
and no peer-registry mutation occur, and nothing but the derived public key
leaves the node (the private key appears in no sent message). -/
theorem exit_node_frame (env : HandlerEnv) (req : VPNRequest) (k : PrivKey)
    (hdec : env.decodeReq = some req) (hh : req.hops = [])
    (hgen : env.genKey = some k) (hsb : env.sendBack = true) :
    streamHandler env =
      [Event.genKeypair k,
       Event.writeResponse { wardenPublicKey := k.publicKey.wire }] ∧
    (streamHandler env).countP isWriteRespEvent = 1 ∧
    (streamHandler env).countP isOsEvent = 0 ∧
    (streamHandler env).countP isRegistryEvent = 0 := by
  have h1 : streamHandler env =
      [Event.genKeypair k,
       Event.writeResponse { wardenPublicKey := k.publicKey.wire }] := by
    simp [streamHandler, hdec, hh, hgen, hsb]
  rw [h1]
  exact ⟨rfl, rfl, rfl, rfl⟩

/-! ## Claim C1 -/

/-- C1: whenever the Peerstore holds fewer eligible peers (non-self, with a
recorded latency below the sentinel) than the requested hop count, connect
fails with the 503 insufficient-peers error; the OS state is untouched and the
trace shows no stream open, no key generation and no interface operation. -/
theorem connect_insufficient_peers (h : HostModel) (k : Int) (env : ConnectEnv)
    (st : OsState) (hk : ((availablePeers h).length : Int) < k) :
    (connectHandler h (some k) env st).1 = ConnectResult.insufficientPeers ∧
    (connectHandler h (some k) env st).2.1 = st ∧
    (connectHandler h (some k) env st).2.2 =
      [Event.writeHTTP 503 (errorResp "Not enough available peers.")] ∧
    (connectHandler h (some k) env st).2.2.countP isOpenStreamEvent = 0 ∧
    (connectHandler h (some k) env st).2.2.countP isGenKeyEvent = 0 ∧
    (connectHandler h (some k) env st).2.2.countP isOsEvent = 0 := by
  have hk0 : ¬ k ≤ 0 := by
    have h0 : (0 : Int) ≤ ((availablePeers h).length : Int) := Int.ofNat_nonneg _
    omega
  have heff : effectiveHops (some k) = k := by simp [effectiveHops, hk0]
  have hout : connectHandler h (some k) env st =
      (ConnectResult.insufficientPeers, st,
       [Event.writeHTTP 503 (errorResp "Not enough available peers.")]) := by
    simp only [connectHandler, heff, if_pos hk]
  rw [hout]
  exact ⟨rfl, rfl, rfl, rfl, rfl, rfl⟩

/-- Witness for C1: self and a sentinel-latency peer leave zero eligible
peers, so a 1-hop request fails with insufficient peers. -/
theorem connect_insufficient_peers_witness :
    (connectHandler
        { selfId := 0
          peers := [{ pid := 0, latency := some 5 }, { pid := 2, latency := some 9999 }] }
        (some 1)
        { genKey := some ⟨5⟩, openEntry := true, sendReq := true,
          recvResp := some { wardenPublicKey := 7 }, remoteAddr := "",
          os := { addOk := true, wgctrlOk := true, parseKeyOk := true,
                  toNetAddrOk := true, configOk := true, upOk := true,
                  dnsOk := true, dnsDomainOk := true } }
        { wg0exists := false, devPrivKey := none, devPeers := [], devUp := false }).1
      = ConnectResult.insufficientPeers :=
  (connect_insufficient_peers _ 1 _ _ (by decide)).1

/-! ## Claim C4 -/

/-- Totality of the latency comparison. -/
theorem leLat_total (a b : PeerRec) : (leLat a b || leLat b a) = true := by
  simp only [leLat, Bool.or_eq_true, decide_eq_true_eq]
  exact le_total (latOf a) (latOf b)

/-- Transitivity of the latency comparison. -/
theorem leLat_trans (a b c : PeerRec) :
    leLat a b = true → leLat b c = true → leLat a c = true := by
  simp only [leLat, decide_eq_true_eq]
  exact le_trans

/-- The selected path is a prefix of the sorted available peers, hence sorted
and made of available peers only. -/
theorem selectedPath_sorted (h : HostModel) (hops : Int) :
    List.Pairwise (fun a b => latOf a ≤ latOf b) (selectedPath h hops) := by
  have hsorted :=
    List.sorted_mergeSort leLat_trans leLat_total (availablePeers h)
  have hsub : (selectedPath h hops).Sublist ((availablePeers h).mergeSort leLat) :=
    List.take_sublist _ _
  exact (List.Pairwise.sublist hsub hsorted).imp fun hab => by
    simpa [leLat] using hab

/-- C4: with hop count k at least 1 and at least k eligible peers, the
selected path consists only of non-self peers with recorded sub-sentinel
latency, is sorted ascending by latency, has length exactly k, and its head is
the peer the negotiation stream is opened to (the entry peer of the wire
request), over the negotiation protocol with the 60-second deadline. -/
theorem connect_path_selection (h : HostModel) (k : Int) (env : ConnectEnv)
    (st : OsState) (sk : PrivKey)
    (hk1 : 1 ≤ k) (hcap : k ≤ ((availablePeers h).length : Int))
    (hgen : env.genKey = some sk) (hopen : env.openEntry = true) :
    (∀ r ∈ selectedPath h k, r.pid ≠ h.selfId ∧ ∃ l, r.latency = some l ∧ l < 9999) ∧
    List.Pairwise (fun a b => latOf a ≤ latOf b) (selectedPath h k) ∧
    (selectedPath h k).length = k.toNat ∧
    Event.openStream ((selectedPath h k).headD dummyRec).pid ProtocolStream 60 ∈
      (connectHandler h (some k) env st).2.2 := by
  have hk0 : ¬ k ≤ 0 := by omega
  have heff : effectiveHops (some k) = k := by simp [effectiveHops, hk0]
  have hcond : ¬ ((availablePeers h).length : Int) < effectiveHops (some k) := by
    rw [heff]; omega
  refine ⟨?_, selectedPath_sorted h k, ?_, ?_⟩
  · intro r hr
    have hr2 : r ∈ (availablePeers h).mergeSort leLat := List.mem_of_mem_take hr
    have hr3 : r ∈ availablePeers h := List.mem_mergeSort.1 hr2
    exact eligiblePeer_spec h.selfId r (List.mem_filter.1 hr3).2
  · have hlen : k.toNat ≤ (availablePeers h).length := Int.toNat_le.2 hcap
    simp only [selectedPath, List.length_take, List.length_mergeSort]
    exact Nat.min_eq_left hlen
  · have hcond2 : ¬ ((availablePeers h).length : Int) < k := by
      rw [heff] at hcond; exact hcond
    simp only [connectHandler, heff, if_neg hcond2, hgen, hopen, Bool.not_true]
    cases hsr : env.sendReq with
    | false => simp [hsr, hcond2]
    | true =>
      cases hrr : env.recvResp with
      | none => simp [hsr, hrr, hcond2]
      | some resp =>
        rcases hcfg : configureSeekerInterface env.os st sk
            resp.wardenPublicKey env.remoteAddr with ⟨res, st2, evs2⟩
        cases res with
        | error e => simp [hsr, hrr, hcfg, hcond2]
        | ok u => simp [hsr, hrr, hcfg, hcond2]

/-- Witness for C4: two eligible peers at 20 ms and 10 ms, one sentinel peer
and self; a 2-hop request selects the two eligible peers in latency order. -/
theorem connect_path_selection_witness :
    (∀ r ∈ selectedPath
        { selfId := 0
          peers := [{ pid := 0, latency := some 1 }, { pid := 2, latency := some 20 },
                    { pid := 3, latency := some 9999 }, { pid := 4, latency := some 10 }] }
        2, r.pid ≠ 0 ∧ ∃ l, r.latency = some l ∧ l < 9999) ∧
    List.Pairwise (fun a b => latOf a ≤ latOf b)
      (selectedPath
        { selfId := 0
          peers := [{ pid := 0, latency := some 1 }, { pid := 2, latency := some 20 },
                    { pid := 3, latency := some 9999 }, { pid := 4, latency := some 10 }] }
        2) := by
  have hmain := connect_path_selection
    { selfId := 0
      peers := [{ pid := 0, latency := some 1 }, { pid := 2, latency := some 20 },
                { pid := 3, latency := some 9999 }, { pid := 4, latency := some 10 }] }
    2
    { genKey := some ⟨5⟩, openEntry := true, sendReq := true,
      recvResp := some { wardenPublicKey := 7 }, remoteAddr := "",
      os := { addOk := true, wgctrlOk := true, parseKeyOk := true,
              toNetAddrOk := true, configOk := true, upOk := true,
              dnsOk := true, dnsDomainOk := true } }
    { wg0exists := false, devPrivKey := none, devPeers := [], devUp := false }
    ⟨5⟩ (by decide) (by decide) rfl rfl
  exact ⟨hmain.1, hmain.2.1⟩

/-- Witness for C10 at a concrete empty-hops request. -/
theorem exit_node_frame_witness :
    streamHandler
        { decodeReq := some { seekerPublicKey := 11, hops := [] }
          decodePeerId := fun n => some n
          openNext := fun _ => some ()
          sendNext := true
          recvNext := none
          sendBack := true
          genKey := some ⟨21⟩ } =
      [Event.genKeypair ⟨21⟩, Event.writeResponse { wardenPublicKey := 21 }] :=
  (exit_node_frame _ { seekerPublicKey := 11, hops := [] } ⟨21⟩ rfl rfl rfl rfl).1

end ArkhamNode
